import Mathlib

/-!
Shallow embedding of the silver-layer validation and cleaning engine of
`scripts/load_silver.py` (function `build_silver_layer`), together with the
audit-sink and silver-store state transitions it performs.

Modelling conventions, taken from the source:
* A bronze row is modelled after the `pd.to_numeric(..., errors="coerce")`
  and `pd.to_datetime(..., errors="coerce")` conversions of lines 160-196:
  numeric columns are `Option ℚ` (`none` is the NaN produced for a missing
  or unparseable value), date columns are `Option Int` (abstract coerced
  timestamps; no cleaning rule reads them), string columns are
  `Option String` (`none` is a null/NaN cell).
* pandas dataframe operations on ordered row collections become list
  operations: `df[mask]` is `List.filter mask`, `df.drop(rej.index)` is
  `List.filter (fun r => !mask r)`, a whole-column assignment is `List.map`,
  and `drop_duplicates(subset=[pk])` (keep="first", the pandas default) is
  `dedupBy`.
* Python `str` methods are modelled character-exactly for ASCII text
  (`Char.isUpper`/`Char.isLower` are ASCII in Lean, Unicode in Python).
* pandas NaN semantics are kept where the source exercises them:
  `s != s.str.strip()` is `true` on a null cell (NaN != NaN holds in
  pandas), `isna() | (strip == "")` is `true` on a null city,
  `isin` is `false` on a null cell, and `astype(str)` renders a null
  method as the string "nan".  Inverting `~df["name"].str.istitle()` /
  `~df["category"].str.islower()` on a null cell raises a TypeError in
  pandas; the embedding totalizes these two masks by flagging the null row
  (no claim exercises a null name or category).
-/

/-- Characters stripped by Python `str.strip()` (ASCII whitespace). -/
def isPySpace (c : Char) : Bool :=
  c == ' ' || c == '\t' || c == '\n' || c == '\r' || c == '\x0b' || c == '\x0c'

/-- Python `str.strip()`: remove leading and trailing whitespace. -/
def pyStrip (s : String) : String :=
  (((s.toList.dropWhile isPySpace).reverse.dropWhile isPySpace).reverse).asString

/-- A character is cased (for titlecasing purposes). -/
def isCased (c : Char) : Bool := c.isUpper || c.isLower

/-- Worker for `pyTitle`: the flag records whether the previous character
was cased. -/
def pyTitleGo : Bool → List Char → List Char
  | _, [] => []
  | prevCased, c :: cs =>
    if isCased c then
      (if prevCased then c.toLower else c.toUpper) :: pyTitleGo true cs
    else
      c :: pyTitleGo false cs

/-- Python `str.title()`: uppercase each cased character that follows an
uncased one, lowercase every other cased character. -/
def pyTitle (s : String) : String := (pyTitleGo false s.toList).asString

/-- Worker for `pyIstitle`: flags record whether the previous character was
cased and whether any cased character has been seen. -/
def pyIstitleGo : Bool → Bool → List Char → Bool
  | _, seenCased, [] => seenCased
  | prevCased, seenCased, c :: cs =>
    if c.isUpper then
      if prevCased then false else pyIstitleGo true true cs
    else if c.isLower then
      if prevCased then pyIstitleGo true true cs else false
    else
      pyIstitleGo false seenCased cs

/-- Python `str.istitle()`: uppercase characters may only follow uncased
ones, lowercase only cased ones, and at least one cased character exists. -/
def pyIstitle (s : String) : Bool := pyIstitleGo false false s.toList

/-- Python `str.islower()`: no uppercase character and at least one cased
(hence lowercase) character. -/
def pyIslower (s : String) : Bool :=
  s.toList.all (fun c => !c.isUpper) && s.toList.any (fun c => c.isLower)

/-- Python `str.lower()`. -/
def pyLower (s : String) : String := (s.toList.map Char.toLower).asString

/-- pandas `astype(str)` on one cell: a null cell becomes the string
"nan". -/
def astypeStr : Option String → String
  | none => "nan"
  | some s => s

/-- Worker for `dedupBy`: drop each row whose key was already seen. -/
def dedupSeen {α κ : Type} [DecidableEq κ] (key : α → κ) :
    List κ → List α → List α
  | _, [] => []
  | seen, x :: xs =>
    if key x ∈ seen then dedupSeen key seen xs
    else x :: dedupSeen key (key x :: seen) xs

/-- pandas `drop_duplicates(subset=[pk])` with the default keep="first":
keep the first row of each key, in input order. -/
def dedupBy {α κ : Type} [DecidableEq κ] (key : α → κ) (l : List α) :
    List α :=
  dedupSeen key [] l

/-- A bronze `students` row after type coercion (lines 160-196). -/
structure StudentRow where
  student_id : Option ℚ
  name : Option String
  email : Option String
  city : Option String
  signup_date : Option Int
  deriving DecidableEq

/-- A bronze `courses` row after type coercion. -/
structure CourseRow where
  course_id : Option ℚ
  course_name : Option String
  category : Option String
  price : Option ℚ
  instructor : Option String
  deriving DecidableEq

/-- A bronze `enrollment` row after type coercion. -/
structure EnrollmentRow where
  enrollment_id : Option ℚ
  student_id : Option ℚ
  course_id : Option ℚ
  enroll_date : Option Int
  status : Option String
  deriving DecidableEq

/-- A bronze `assessment` row after type coercion. -/
structure AssessmentRow where
  assessment_id : Option ℚ
  student_id : Option ℚ
  course_id : Option ℚ
  score : Option ℚ
  attempt_date : Option Int
  deriving DecidableEq

/-- A bronze `payments` row after type coercion. -/
structure PaymentRow where
  payment_id : Option ℚ
  student_id : Option ℚ
  course_id : Option ℚ
  amount : Option ℚ
  payment_date : Option Int
  method : Option String
  deriving DecidableEq

/-- The `rejected_data` JSONB payload of one audit row: the snapshot of
the rejected dataframe row (`row.to_json()` in `log_and_store_rejections`). -/
inductive RejectedData where
  | student (r : StudentRow)
  | course (r : CourseRow)
  | enrollment (r : EnrollmentRow)
  | assessment (r : AssessmentRow)
  | payment (r : PaymentRow)
  deriving DecidableEq

/-- One row of `audit.rejected_rows` (minus the serial id and timestamp). -/
structure AuditEntry where
  table_name : String
  rejected_data : RejectedData
  reason : String
  deriving DecidableEq

/-- Line 213 mask: `df["city"].isna() | (df["city"].str.strip() == "")`.
On a null city `isna` is true; on a non-null one NaN cannot occur. -/
def studentCityMask (r : StudentRow) : Bool :=
  match r.city with
  | none => true
  | some c => pyStrip c == ""

/-- Line 218 mask: `df["email"].str.strip() != df["email"]`.  On a null
email both sides are NaN and pandas `NaN != NaN` is true, so the row is
flagged. -/
def studentEmailMask (r : StudentRow) : Bool :=
  match r.email with
  | none => true
  | some e => pyStrip e != e

/-- Line 223 mask: `~df["name"].str.istitle()`.  pandas raises on a null
name (unary `~` of an object column); totalized here as flagged. -/
def studentNameMask (r : StudentRow) : Bool :=
  match r.name with
  | none => true
  | some n => !pyIstitle n

/-- Lines 207-225: the students cleaning pipeline on one (deduplicated)
row list.  Returns the kept rows and the (row-snapshot, reason) pairs sent
to the audit sink, in emission order. -/
def studentsChecks (l : List StudentRow) :
    List StudentRow × List (StudentRow × String) :=
  let rej1 := l.filter (fun r => r.student_id.isNone)
  let l1 := l.filter (fun r => !r.student_id.isNone)
  let rej2 := l1.filter studentCityMask
  let l2 := l1.filter (fun r => !studentCityMask r)
  let rej3 := l2.filter studentEmailMask
  let l3 := l2.map (fun r => { r with email := r.email.map pyStrip })
  let rej4 := l3.filter studentNameMask
  let l4 := l3.map (fun r => { r with name := r.name.map pyTitle })
  (l4,
    rej1.map (fun r => (r, "Non-numeric student_id")) ++
    rej2.map (fun r => (r, "Missing city")) ++
    rej3.map (fun r => (r, "Whitespace in email")) ++
    rej4.map (fun r => (r, "Invalid casing in name")))

/-- Line 239 mask: `~df["category"].str.islower()` (totalized on null as
flagged, as for names). -/
def courseCategoryMask (r : CourseRow) : Bool :=
  match r.category with
  | none => true
  | some c => !pyIslower c

/-- Line 244 mask: `~df["price"].between(50, 500)`; `between` is
inclusive on both endpoints, and false on NaN. -/
def coursePriceOutMask (r : CourseRow) : Bool :=
  match r.price with
  | none => true
  | some q => !(decide (50 ≤ q ∧ q ≤ 500))

/-- Lines 228-246: the courses cleaning pipeline. -/
def coursesChecks (l : List CourseRow) :
    List CourseRow × List (CourseRow × String) :=
  let rej1 := l.filter (fun r => r.course_id.isNone)
  let l1 := l.filter (fun r => !r.course_id.isNone)
  let rej2 := l1.filter (fun r => r.price.isNone)
  let l2 := l1.filter (fun r => !r.price.isNone)
  let rej3 := l2.filter courseCategoryMask
  let l3 := l2.map (fun r => { r with category := r.category.map pyLower })
  let rej4 := l3.filter coursePriceOutMask
  let l4 := l3.filter (fun r => !coursePriceOutMask r)
  (l4,
    rej1.map (fun r => (r, "Non-numeric course_id")) ++
    rej2.map (fun r => (r, "Non-numeric price")) ++
    rej3.map (fun r => (r, "Invalid casing in category")) ++
    rej4.map (fun r => (r, "Price out of range [50,500]")))

/-- Line 261 mask: `~df["status"].isin({"active","completed","dropped"})`;
`isin` is false on a null cell, so a null status is rejected. -/
def enrollmentStatusMask (r : EnrollmentRow) : Bool :=
  match r.status with
  | none => true
  | some s => !(s == "active" || s == "completed" || s == "dropped")

/-- Lines 249-263: the enrollment cleaning pipeline. -/
def enrollmentChecks (l : List EnrollmentRow) :
    List EnrollmentRow × List (EnrollmentRow × String) :=
  let rej1 := l.filter (fun r => r.enrollment_id.isNone)
  let l1 := l.filter (fun r => !r.enrollment_id.isNone)
  let rej2 := l1.filter (fun r => r.student_id.isNone || r.course_id.isNone)
  let l2 := l1.filter (fun r => !(r.student_id.isNone || r.course_id.isNone))
  let rej3 := l2.filter enrollmentStatusMask
  let l3 := l2.filter (fun r => !enrollmentStatusMask r)
  (l3,
    rej1.map (fun r => (r, "Non-numeric enrollment_id")) ++
    rej2.map (fun r => (r, "Non-numeric student_id/course_id")) ++
    rej3.map (fun r => (r, "Invalid status enum")))

/-- Line 282 mask: `~df["score"].between(0, 100)`, inclusive bounds. -/
def assessmentScoreOutMask (r : AssessmentRow) : Bool :=
  match r.score with
  | none => true
  | some q => !(decide (0 ≤ q ∧ q ≤ 100))

/-- Lines 266-284: the assessment cleaning pipeline. -/
def assessmentChecks (l : List AssessmentRow) :
    List AssessmentRow × List (AssessmentRow × String) :=
  let rej1 := l.filter (fun r => r.assessment_id.isNone)
  let l1 := l.filter (fun r => !r.assessment_id.isNone)
  let rej2 := l1.filter (fun r => r.student_id.isNone || r.course_id.isNone)
  let l2 := l1.filter (fun r => !(r.student_id.isNone || r.course_id.isNone))
  let rej3 := l2.filter (fun r => r.score.isNone)
  let l3 := l2.filter (fun r => !r.score.isNone)
  let rej4 := l3.filter assessmentScoreOutMask
  let l4 := l3.filter (fun r => !assessmentScoreOutMask r)
  (l4,
    rej1.map (fun r => (r, "Non-numeric assessment_id")) ++
    rej2.map (fun r => (r, "Non-numeric student_id/course_id")) ++
    rej3.map (fun r => (r, "Non-numeric score")) ++
    rej4.map (fun r => (r, "Score out of range [0,100]")))

/-- Line 303 mask: `~df["amount"].between(50, 500)`, inclusive bounds. -/
def paymentAmountOutMask (r : PaymentRow) : Bool :=
  match r.amount with
  | none => true
  | some q => !(decide (50 ≤ q ∧ q ≤ 500))

/-- Line 309 normalization of one method cell:
`astype(str).str.strip().str.title()`. -/
def paymentMethodNorm (m : Option String) : String :=
  pyTitle (pyStrip (astypeStr m))

/-- Line 310: the fixed method enum. -/
def validMethods : List String :=
  ["Credit Card", "Debit Card", "Upi", "Netbanking", "Paypal", "Cash",
   "Bank Transfer"]

/-- Line 311 mask: `~df["method"].isin(valid_methods)` after the
normalization made every method a plain string. -/
def paymentMethodMask (r : PaymentRow) : Bool :=
  match r.method with
  | none => true
  | some m => !(decide (m ∈ validMethods))

/-- Lines 287-313: the payments cleaning pipeline.  The method column is
normalized only after the amount-range drop, so amount-rejected rows are
logged with their raw method. -/
def paymentsChecks (l : List PaymentRow) :
    List PaymentRow × List (PaymentRow × String) :=
  let rej1 := l.filter (fun r => r.payment_id.isNone)
  let l1 := l.filter (fun r => !r.payment_id.isNone)
  let rej2 := l1.filter (fun r => r.student_id.isNone || r.course_id.isNone)
  let l2 := l1.filter (fun r => !(r.student_id.isNone || r.course_id.isNone))
  let rej3 := l2.filter (fun r => r.amount.isNone)
  let l3 := l2.filter (fun r => !r.amount.isNone)
  let rej4 := l3.filter paymentAmountOutMask
  let l4 := l3.filter (fun r => !paymentAmountOutMask r)
  let l5 := l4.map (fun r => { r with method := some (paymentMethodNorm r.method) })
  let rej5 := l5.filter paymentMethodMask
  let l6 := l5.filter (fun r => !paymentMethodMask r)
  (l6,
    rej1.map (fun r => (r, "Non-numeric payment_id")) ++
    rej2.map (fun r => (r, "Non-numeric student_id/course_id")) ++
    rej3.map (fun r => (r, "Non-numeric amount")) ++
    rej4.map (fun r => (r, "Amount out of range [50,500]")) ++
    rej5.map (fun r => (r, "Invalid method enum")))

/-- The five bronze tables read in lines 153-157, after type coercion. -/
structure BronzeData where
  students : List StudentRow
  courses : List CourseRow
  enrollment : List EnrollmentRow
  assessment : List AssessmentRow
  payments : List PaymentRow
  deriving DecidableEq

/-- Students pipeline output: dedup on `student_id` (line 200), then the
per-table checks (lines 207-225). -/
def studentsOut (b : BronzeData) :
    List StudentRow × List (StudentRow × String) :=
  studentsChecks (dedupBy (fun r => r.student_id) b.students)

/-- Courses pipeline output (lines 201, 228-246). -/
def coursesOut (b : BronzeData) :
    List CourseRow × List (CourseRow × String) :=
  coursesChecks (dedupBy (fun r => r.course_id) b.courses)

/-- Enrollment pipeline output before the FK pass (lines 202, 249-263). -/
def enrollmentOut (b : BronzeData) :
    List EnrollmentRow × List (EnrollmentRow × String) :=
  enrollmentChecks (dedupBy (fun r => r.enrollment_id) b.enrollment)

/-- Assessment pipeline output before the FK pass (lines 203, 266-284). -/
def assessmentOut (b : BronzeData) :
    List AssessmentRow × List (AssessmentRow × String) :=
  assessmentChecks (dedupBy (fun r => r.assessment_id) b.assessment)

/-- Payments pipeline output before the FK pass (lines 204, 287-313). -/
def paymentsOut (b : BronzeData) :
    List PaymentRow × List (PaymentRow × String) :=
  paymentsChecks (dedupBy (fun r => r.payment_id) b.payments)

/-- Line 317: `set(df_students["student_id"])` over the surviving
students. -/
def validStudentIds (b : BronzeData) : List (Option ℚ) :=
  (studentsOut b).1.map (fun r => r.student_id)

/-- Line 318: `set(df_courses["course_id"])` over the surviving courses. -/
def validCourseIds (b : BronzeData) : List (Option ℚ) :=
  (coursesOut b).1.map (fun r => r.course_id)

/-- Lines 321-324 FK mask for enrollment. -/
def enrollmentFkMask (b : BronzeData) (r : EnrollmentRow) : Bool :=
  !(decide (r.student_id ∈ validStudentIds b)) ||
  !(decide (r.course_id ∈ validCourseIds b))

/-- Lines 329-332 FK mask for assessment. -/
def assessmentFkMask (b : BronzeData) (r : AssessmentRow) : Bool :=
  !(decide (r.student_id ∈ validStudentIds b)) ||
  !(decide (r.course_id ∈ validCourseIds b))

/-- Lines 337-340 FK mask for payments. -/
def paymentFkMask (b : BronzeData) (r : PaymentRow) : Bool :=
  !(decide (r.student_id ∈ validStudentIds b)) ||
  !(decide (r.course_id ∈ validCourseIds b))

/-- The outcome of one `build_silver_layer` run: the rows inserted into
the five silver tables (lines 346-350) and the audit entries emitted, in
program order (students rules, courses, enrollment, assessment, payments,
then the three FK passes of lines 316-342). -/
structure SilverResult where
  students : List StudentRow
  courses : List CourseRow
  enrollment : List EnrollmentRow
  assessment : List AssessmentRow
  payments : List PaymentRow
  audit : List AuditEntry
  deriving DecidableEq

/-- The full cleaning computation of `build_silver_layer` on one bronze
snapshot. -/
def buildSilver (b : BronzeData) : SilverResult where
  students := (studentsOut b).1
  courses := (coursesOut b).1
  enrollment := (enrollmentOut b).1.filter (fun r => !enrollmentFkMask b r)
  assessment := (assessmentOut b).1.filter (fun r => !assessmentFkMask b r)
  payments := (paymentsOut b).1.filter (fun r => !paymentFkMask b r)
  audit :=
    (studentsOut b).2.map
      (fun p => ⟨"students", RejectedData.student p.1, p.2⟩) ++
    (coursesOut b).2.map
      (fun p => ⟨"courses", RejectedData.course p.1, p.2⟩) ++
    (enrollmentOut b).2.map
      (fun p => ⟨"enrollment", RejectedData.enrollment p.1, p.2⟩) ++
    (assessmentOut b).2.map
      (fun p => ⟨"assessment", RejectedData.assessment p.1, p.2⟩) ++
    (paymentsOut b).2.map
      (fun p => ⟨"payments", RejectedData.payment p.1, p.2⟩) ++
    ((enrollmentOut b).1.filter (enrollmentFkMask b)).map
      (fun r => ⟨"enrollment", RejectedData.enrollment r,
                 "Invalid FK student_id/course_id"⟩) ++
    ((assessmentOut b).1.filter (assessmentFkMask b)).map
      (fun r => ⟨"assessment", RejectedData.assessment r,
                 "Invalid FK student_id/course_id"⟩) ++
    ((paymentsOut b).1.filter (paymentFkMask b)).map
      (fun r => ⟨"payments", RejectedData.payment r,
                 "Invalid FK student_id/course_id"⟩)

/-- A bronze snapshot with each table already deduplicated on its
primary key (the operation of lines 199-204 applied up front). -/
def dedupTables (b : BronzeData) : BronzeData :=
  ⟨dedupBy (fun r => r.student_id) b.students,
   dedupBy (fun r => r.course_id) b.courses,
   dedupBy (fun r => r.enrollment_id) b.enrollment,
   dedupBy (fun r => r.assessment_id) b.assessment,
   dedupBy (fun r => r.payment_id) b.payments⟩

/-- The contents of the five silver tables. -/
structure SilverTables where
  students : List StudentRow
  courses : List CourseRow
  enrollment : List EnrollmentRow
  assessment : List AssessmentRow
  payments : List PaymentRow
  deriving DecidableEq

/-- Persistent database state touched by a run: the silver tables and the
append-only `audit.rejected_rows` log. -/
structure DBState where
  silver : SilverTables
  auditLog : List AuditEntry
  deriving DecidableEq

/-- One `build_silver_layer` run against the store: the silver tables are
truncated (lines 145-149) and repopulated from the cleaning result
(lines 346-350), while audit rows are inserted into the never-truncated
`audit.rejected_rows` (lines 131-141). -/
def runSilverBuild (b : BronzeData) (db : DBState) : DBState :=
  let r := buildSilver b
  { silver := { students := r.students, courses := r.courses,
                enrollment := r.enrollment, assessment := r.assessment,
                payments := r.payments },
    auditLog := db.auditLog ++ r.audit }

/-! ## Helper lemmas -/

theorem length_filter_not {α : Type} (p : α → Bool) (l : List α) :
    (l.filter p).length + (l.filter (fun x => !p x)).length = l.length := by
  induction l with
  | nil => rfl
  | cons x xs ih =>
    simp only [List.filter_cons]
    cases h : p x <;> simp [h] <;> omega

theorem dedupSeen_sublist {α κ : Type} [DecidableEq κ] (key : α → κ) :
    ∀ (seen : List κ) (l : List α), List.Sublist (dedupSeen key seen l) l
  | _, [] => List.Sublist.refl []
  | seen, x :: xs => by
    simp only [dedupSeen]
    by_cases h : key x ∈ seen
    · rw [if_pos h]
      exact (dedupSeen_sublist key seen xs).cons x
    · rw [if_neg h]
      exact (dedupSeen_sublist key (key x :: seen) xs).cons₂ x

theorem dedupSeen_key_not_seen {α κ : Type} [DecidableEq κ] (key : α → κ) :
    ∀ (seen : List κ) (l : List α) (x : α),
      x ∈ dedupSeen key seen l → key x ∉ seen
  | seen, [], x, hx => by simp [dedupSeen] at hx
  | seen, y :: ys, x, hx => by
    by_cases h : key y ∈ seen
    · rw [dedupSeen, if_pos h] at hx
      exact dedupSeen_key_not_seen key seen ys x hx
    · rw [dedupSeen, if_neg h] at hx
      rcases List.mem_cons.mp hx with rfl | hx
      · exact h
      · intro hcon
        exact dedupSeen_key_not_seen key (key y :: seen) ys x hx
          (List.mem_cons_of_mem _ hcon)

theorem dedupSeen_keys_nodup {α κ : Type} [DecidableEq κ] (key : α → κ) :
    ∀ (seen : List κ) (l : List α),
      ((dedupSeen key seen l).map key).Nodup
  | _, [] => List.nodup_nil
  | seen, y :: ys => by
    by_cases h : key y ∈ seen
    · rw [dedupSeen, if_pos h]
      exact dedupSeen_keys_nodup key seen ys
    · rw [dedupSeen, if_neg h]
      refine List.nodup_cons.mpr ⟨?_, dedupSeen_keys_nodup key (key y :: seen) ys⟩
      intro hmem
      rcases List.mem_map.mp hmem with ⟨z, hz, hkz⟩
      exact dedupSeen_key_not_seen key (key y :: seen) ys z hz
        (hkz ▸ List.mem_cons_self _ _)

theorem dedupSeen_eq_self {α κ : Type} [DecidableEq κ] (key : α → κ) :
    ∀ (seen : List κ) (l : List α), (l.map key).Nodup →
      (∀ x ∈ l, key x ∉ seen) → dedupSeen key seen l = l
  | _, [], _, _ => rfl
  | seen, x :: xs, hnd, hdisj => by
    rw [dedupSeen, if_neg (hdisj x (List.mem_cons_self x xs))]
    congr 1
    rw [List.map_cons] at hnd
    have hnd' := List.nodup_cons.mp hnd
    refine dedupSeen_eq_self key _ _ hnd'.2 ?_
    intro y hy
    rw [List.mem_cons]
    push_neg
    refine ⟨?_, hdisj y (List.mem_cons_of_mem _ hy)⟩
    intro hkey
    exact hnd'.1 (hkey ▸ List.mem_map_of_mem key hy)

theorem dedupSeen_find {α κ : Type} [DecidableEq κ] (key : α → κ) :
    ∀ (seen : List κ) (l : List α) (k : κ), k ∉ seen →
      (dedupSeen key seen l).find? (fun x => key x == k) =
        l.find? (fun x => key x == k)
  | _, [], _, _ => rfl
  | seen, x :: xs, k, hk => by
    by_cases h : key x ∈ seen
    · rw [dedupSeen, if_pos h]
      have hne : (key x == k) = false := by
        simp only [beq_eq_false_iff_ne, ne_eq]
        intro he
        exact hk (he ▸ h)
      rw [List.find?_cons, hne]
      exact dedupSeen_find key seen xs k hk
    · rw [dedupSeen, if_neg h]
      by_cases he : key x = k
      · rw [List.find?_cons, List.find?_cons]
        simp [he]
      · have hne : (key x == k) = false := by simpa using he
        rw [List.find?_cons, List.find?_cons, hne]
        refine dedupSeen_find key (key x :: seen) xs k ?_
        rw [List.mem_cons]
        push_neg
        exact ⟨fun hkk => he hkk.symm, hk⟩

theorem dedupBy_keys_nodup {α κ : Type} [DecidableEq κ] (key : α → κ)
    (l : List α) : ((dedupBy key l).map key).Nodup :=
  dedupSeen_keys_nodup key [] l

theorem dedupBy_eq_self {α κ : Type} [DecidableEq κ] (key : α → κ)
    {l : List α} (h : (l.map key).Nodup) : dedupBy key l = l :=
  dedupSeen_eq_self key [] l h (fun x _ => List.not_mem_nil (key x))

theorem dedupBy_idem {α κ : Type} [DecidableEq κ] (key : α → κ)
    (l : List α) : dedupBy key (dedupBy key l) = dedupBy key l :=
  dedupBy_eq_self key (dedupBy_keys_nodup key l)

theorem filter_perm_congr {γ : Type} {l1 l2 : List γ} (h : l1.Perm l2)
    {p q : γ → Bool} (hpq : ∀ x, p x = q x) :
    (l1.filter p).Perm (l2.filter q) := by
  rw [List.filter_congr (fun x _ => hpq x)]
  exact h.filter q

theorem studentsChecks_perm {l1 l2 : List StudentRow} (h : l1.Perm l2) :
    (studentsChecks l1).1.Perm (studentsChecks l2).1 ∧
    (studentsChecks l1).2.Perm (studentsChecks l2).2 := by
  simp only [studentsChecks]
  refine ⟨(((h.filter _).filter _).map _).map _, ?_⟩
  exact ((((h.filter _).map _).append (((h.filter _).filter _).map _)).append
    ((((h.filter _).filter _).filter _).map _)).append
    (((((h.filter _).filter _).map _).filter _).map _)

theorem coursesChecks_perm {l1 l2 : List CourseRow} (h : l1.Perm l2) :
    (coursesChecks l1).1.Perm (coursesChecks l2).1 ∧
    (coursesChecks l1).2.Perm (coursesChecks l2).2 := by
  simp only [coursesChecks]
  refine ⟨((((h.filter _).filter _).map _).filter _), ?_⟩
  exact ((((h.filter _).map _).append (((h.filter _).filter _).map _)).append
    ((((h.filter _).filter _).filter _).map _)).append
    (((((h.filter _).filter _).map _).filter _).map _)

theorem enrollmentChecks_perm {l1 l2 : List EnrollmentRow} (h : l1.Perm l2) :
    (enrollmentChecks l1).1.Perm (enrollmentChecks l2).1 ∧
    (enrollmentChecks l1).2.Perm (enrollmentChecks l2).2 := by
  simp only [enrollmentChecks]
  refine ⟨((h.filter _).filter _).filter _, ?_⟩
  exact (((h.filter _).map _).append (((h.filter _).filter _).map _)).append
    ((((h.filter _).filter _).filter _).map _)

theorem assessmentChecks_perm {l1 l2 : List AssessmentRow} (h : l1.Perm l2) :
    (assessmentChecks l1).1.Perm (assessmentChecks l2).1 ∧
    (assessmentChecks l1).2.Perm (assessmentChecks l2).2 := by
  simp only [assessmentChecks]
  refine ⟨(((h.filter _).filter _).filter _).filter _, ?_⟩
  exact ((((h.filter _).map _).append (((h.filter _).filter _).map _)).append
    ((((h.filter _).filter _).filter _).map _)).append
    (((((h.filter _).filter _).filter _).filter _).map _)

theorem paymentsChecks_perm {l1 l2 : List PaymentRow} (h : l1.Perm l2) :
    (paymentsChecks l1).1.Perm (paymentsChecks l2).1 ∧
    (paymentsChecks l1).2.Perm (paymentsChecks l2).2 := by
  simp only [paymentsChecks]
  refine ⟨(((((h.filter _).filter _).filter _).filter _).map _).filter _, ?_⟩
  refine List.Perm.append (List.Perm.append (List.Perm.append
    (List.Perm.append ?_ ?_) ?_) ?_) ?_
  · exact (h.filter _).map _
  · exact ((h.filter _).filter _).map _
  · exact (((h.filter _).filter _).filter _).map _
  · exact ((((h.filter _).filter _).filter _).filter _).map _
  · exact ((((((h.filter _).filter _).filter _).filter _).map _).filter _).map _

/-! ## Concrete rows used by witnesses and counterexamples -/

/-- The Student scenario row of the spec:
`{student_id:5, name:"john smith", email:" j@x.com ", city:"Pune"}`. -/
def sJohn : StudentRow :=
  ⟨some 5, some "john smith", some " j@x.com ", some "Pune", none⟩

/-- `sJohn` after the email trim, as logged by the name-casing rule. -/
def sJohnMid : StudentRow :=
  ⟨some 5, some "john smith", some "j@x.com", some "Pune", none⟩

/-- `sJohn` fully normalized. -/
def sJohnOut : StudentRow :=
  ⟨some 5, some "John Smith", some "j@x.com", some "Pune", none⟩

/-! ## Claim theorems -/

/-- C5: a Student row that passes the id and city checks is never dropped
by the email/name rules: it continues forward with trimmed email and
title-cased name, the "Whitespace in email" audit record is emitted
exactly when the original email differs from its trimmed form, and the
"Invalid casing in name" record exactly when the name is not already
title-cased (the latter logged with the email already trimmed). -/
theorem c5_flag_and_keep (s : StudentRow) (e n : String)
    (hid : s.student_id.isNone = false)
    (hcity : studentCityMask s = false)
    (hem : s.email = some e) (hname : s.name = some n) :
    (studentsChecks [s]).1 =
      [{ s with email := some (pyStrip e), name := some (pyTitle n) }] ∧
    (studentsChecks [s]).2 =
      (if pyStrip e != e then [(s, "Whitespace in email")] else []) ++
      (if !pyIstitle n then
        [({ s with email := some (pyStrip e) }, "Invalid casing in name")]
       else []) := by
  obtain ⟨idv, hidv⟩ : ∃ v, s.student_id = some v := by
    cases h : s.student_id with
    | none => rw [h] at hid; simp at hid
    | some v => exact ⟨v, rfl⟩
  have hm3 : studentEmailMask s = (pyStrip e != e) := by
    simp [studentEmailMask, hem]
  have hm4 : studentNameMask { s with email := some (pyStrip e) } =
      (!pyIstitle n) := by
    simp [studentNameMask, hname]
  constructor
  · simp [studentsChecks, List.filter_cons, hidv, hcity, hem, hname]
  · by_cases h3 : (pyStrip e != e) = true <;>
      by_cases h4 : (!pyIstitle n) = true <;>
      simp_all [studentsChecks, List.filter_cons, hidv, hcity, hem, hm3,
        hm4]

/-- C5 witness: the spec scenario row is kept, normalized to
`{name:"John Smith", email:"j@x.com", city:"Pune"}`, with exactly the two
audit entries "Whitespace in email" (original row) and
"Invalid casing in name" (email already trimmed). -/
theorem c5_witness :
    (studentsChecks [sJohn]).1 = [sJohnOut] ∧
    (studentsChecks [sJohn]).2 =
      [(sJohn, "Whitespace in email"), (sJohnMid, "Invalid casing in name")] := by
  obtain ⟨h1, h2⟩ :=
    c5_flag_and_keep sJohn " j@x.com " "john smith" rfl (by decide) rfl rfl
  refine ⟨?_, ?_⟩
  · rw [h1]; decide
  · rw [h2]; decide

/-- The Course row used for the C6 boundary witness, with a given price. -/
def c6Course (q : ℚ) : CourseRow :=
  ⟨some 1, some "Algebra", some "math", some q, some "Y"⟩

/-- The Assessment row used for the C6 boundary witness. -/
def c6Assessment (q : ℚ) : AssessmentRow :=
  ⟨some 1, some 7, some 3, some q, none⟩

/-- The Payment row used for the C6 boundary witness. -/
def c6Payment (q : ℚ) : PaymentRow :=
  ⟨some 1, some 7, some 3, some q, none, some "Upi"⟩

/-- C6: the range checks are inclusive on both endpoints.  A Course that
passed the id and price-numeric rules is kept exactly when
50 ≤ price ≤ 500 and otherwise rejected with
"Price out of range [50,500]" (logged with the category already
lowercased); an Assessment that passed its earlier rules is kept exactly
when 0 ≤ score ≤ 100 and otherwise rejected with
"Score out of range [0,100]"; a Payment that passed its earlier rules
never receives an "Amount out of range [50,500]" record when
50 ≤ amount ≤ 500 (and is kept whenever its normalized method is also in
the enum), and outside that range is rejected with exactly that record. -/
theorem c6_inclusive_bounds :
    (∀ (c : CourseRow) (q : ℚ), c.course_id.isNone = false →
      c.price = some q →
      ((50 ≤ q ∧ q ≤ 500) →
        (coursesChecks [c]).1 =
          [{ c with category := c.category.map pyLower }]) ∧
      (¬(50 ≤ q ∧ q ≤ 500) →
        (coursesChecks [c]).1 = [] ∧
        ({ c with category := c.category.map pyLower },
          "Price out of range [50,500]") ∈ (coursesChecks [c]).2)) ∧
    (∀ (a : AssessmentRow) (q : ℚ), a.assessment_id.isNone = false →
      a.student_id.isNone = false → a.course_id.isNone = false →
      a.score = some q →
      ((0 ≤ q ∧ q ≤ 100) → (assessmentChecks [a]).1 = [a]) ∧
      (¬(0 ≤ q ∧ q ≤ 100) →
        (assessmentChecks [a]).1 = [] ∧
        (assessmentChecks [a]).2 = [(a, "Score out of range [0,100]")])) ∧
    (∀ (p : PaymentRow) (q : ℚ), p.payment_id.isNone = false →
      p.student_id.isNone = false → p.course_id.isNone = false →
      p.amount = some q →
      ((50 ≤ q ∧ q ≤ 500) →
        (∀ pr ∈ (paymentsChecks [p]).2,
          pr.2 ≠ "Amount out of range [50,500]") ∧
        (paymentMethodMask
            { p with method := some (paymentMethodNorm p.method) } = false →
          (paymentsChecks [p]).1 =
            [{ p with method := some (paymentMethodNorm p.method) }])) ∧
      (¬(50 ≤ q ∧ q ≤ 500) →
        (paymentsChecks [p]).1 = [] ∧
        (paymentsChecks [p]).2 =
          [(p, "Amount out of range [50,500]")])) := by
  refine ⟨?_, ?_, ?_⟩
  · intro c q hid hq
    obtain ⟨idv, hidv⟩ : ∃ v, c.course_id = some v := by
      cases h : c.course_id with
      | none => rw [h] at hid; simp at hid
      | some v => exact ⟨v, rfl⟩
    constructor
    · intro hin
      simp [coursesChecks, List.filter_cons, hidv, hq, coursePriceOutMask,
        hin, courseCategoryMask]
    · intro hnotin
      constructor
      · simp [coursesChecks, List.filter_cons, hidv, hq, coursePriceOutMask,
          hnotin]
      · simp [coursesChecks, List.filter_cons, hidv, hq, coursePriceOutMask,
          hnotin, courseCategoryMask]
  · intro a q h1 h2 h3 hq
    obtain ⟨v1, hv1⟩ : ∃ v, a.assessment_id = some v := by
      cases h : a.assessment_id with
      | none => rw [h] at h1; simp at h1
      | some v => exact ⟨v, rfl⟩
    obtain ⟨v2, hv2⟩ : ∃ v, a.student_id = some v := by
      cases h : a.student_id with
      | none => rw [h] at h2; simp at h2
      | some v => exact ⟨v, rfl⟩
    obtain ⟨v3, hv3⟩ : ∃ v, a.course_id = some v := by
      cases h : a.course_id with
      | none => rw [h] at h3; simp at h3
      | some v => exact ⟨v, rfl⟩
    have hout : assessmentScoreOutMask a = !(decide (0 ≤ q ∧ q ≤ 100)) := by
      simp [assessmentScoreOutMask, hq]
    constructor
    · intro hin
      simp [assessmentChecks, List.filter_cons, hv1, hv2, hv3, hq, hout, hin]
    · intro hnotin
      refine ⟨?_, ?_⟩ <;>
        simp [assessmentChecks, List.filter_cons, hv1, hv2, hv3, hq, hout,
          hnotin]
  · intro p q h1 h2 h3 hq
    obtain ⟨v1, hv1⟩ : ∃ v, p.payment_id = some v := by
      cases h : p.payment_id with
      | none => rw [h] at h1; simp at h1
      | some v => exact ⟨v, rfl⟩
    obtain ⟨v2, hv2⟩ : ∃ v, p.student_id = some v := by
      cases h : p.student_id with
      | none => rw [h] at h2; simp at h2
      | some v => exact ⟨v, rfl⟩
    obtain ⟨v3, hv3⟩ : ∃ v, p.course_id = some v := by
      cases h : p.course_id with
      | none => rw [h] at h3; simp at h3
      | some v => exact ⟨v, rfl⟩
    constructor
    · intro hin
      constructor
      · intro pr hpr
        by_cases hmm : paymentMethodNorm p.method ∈ validMethods
        · rw [show (paymentsChecks [p]).2 = [] from by
            simp [paymentsChecks, List.filter_cons, hv1, hv2, hv3, hq,
              paymentAmountOutMask, hin, paymentMethodMask, hmm]] at hpr
          exact absurd hpr (List.not_mem_nil pr)
        · rw [show (paymentsChecks [p]).2 =
              [({ p with method := some (paymentMethodNorm p.method) },
                "Invalid method enum")] from by
            simp [paymentsChecks, List.filter_cons, hv1, hv2, hv3, hq,
              paymentAmountOutMask, hin, paymentMethodMask, hmm]] at hpr
          rw [List.mem_singleton] at hpr
          subst hpr
          exact (by decide : ("Invalid method enum" : String) ≠
            "Amount out of range [50,500]")
      · intro hmask
        have hmm : paymentMethodNorm p.method ∈ validMethods := by
          simpa [paymentMethodMask] using hmask
        simp [paymentsChecks, List.filter_cons, hv1, hv2, hv3, hq,
          paymentAmountOutMask, hin, paymentMethodMask, hmm]
    · intro hnotin
      refine ⟨?_, ?_⟩ <;>
        simp [paymentsChecks, List.filter_cons, hv1, hv2, hv3, hq,
          paymentAmountOutMask, hnotin]

theorem c6Course_lower (q : ℚ) :
    ({ c6Course q with category := (c6Course q).category.map pyLower } :
      CourseRow) = c6Course q := by
  simp only [c6Course]
  congr 1

/-- C6 witness: price exactly 50 and exactly 500 are kept, 49.99 and
500.01 rejected with "Price out of range [50,500]"; score 0 and 100 kept,
101 rejected; amount 50 and 500 raise no amount-range record, 49.99 is
rejected with "Amount out of range [50,500]". -/
theorem c6_witness :
    (coursesChecks [c6Course 50]).1 = [c6Course 50] ∧
    (coursesChecks [c6Course 500]).1 = [c6Course 500] ∧
    ((coursesChecks [c6Course (4999/100)]).1 = [] ∧
      (c6Course (4999/100), "Price out of range [50,500]") ∈
        (coursesChecks [c6Course (4999/100)]).2) ∧
    ((coursesChecks [c6Course (50001/100)]).1 = [] ∧
      (c6Course (50001/100), "Price out of range [50,500]") ∈
        (coursesChecks [c6Course (50001/100)]).2) ∧
    (assessmentChecks [c6Assessment 0]).1 = [c6Assessment 0] ∧
    (assessmentChecks [c6Assessment 100]).1 = [c6Assessment 100] ∧
    (assessmentChecks [c6Assessment 101]).2 =
      [(c6Assessment 101, "Score out of range [0,100]")] ∧
    (paymentsChecks [c6Payment 50]).1 = [c6Payment 50] ∧
    (paymentsChecks [c6Payment 500]).1 = [c6Payment 500] ∧
    (paymentsChecks [c6Payment (4999/100)]).2 =
      [(c6Payment (4999/100), "Amount out of range [50,500]")] := by
  obtain ⟨hC, hA, hP⟩ := c6_inclusive_bounds
  refine ⟨?_, ?_, ⟨?_, ?_⟩, ⟨?_, ?_⟩, ?_, ?_, ?_, ?_, ?_, ?_⟩
  · rw [(hC (c6Course 50) 50 rfl rfl).1 (by norm_num)]; decide
  · rw [(hC (c6Course 500) 500 rfl rfl).1 (by norm_num)]; decide
  · exact ((hC (c6Course (4999/100)) (4999/100) rfl rfl).2
      (by norm_num)).1
  · have h := ((hC (c6Course (4999/100)) (4999/100) rfl rfl).2
      (by norm_num)).2
    rw [c6Course_lower] at h
    exact h
  · exact ((hC (c6Course (50001/100)) (50001/100) rfl rfl).2
      (by norm_num)).1
  · have h := ((hC (c6Course (50001/100)) (50001/100) rfl rfl).2
      (by norm_num)).2
    rw [c6Course_lower] at h
    exact h
  · exact (hA (c6Assessment 0) 0 rfl rfl rfl rfl).1 (by norm_num)
  · exact (hA (c6Assessment 100) 100 rfl rfl rfl rfl).1 (by norm_num)
  · exact ((hA (c6Assessment 101) 101 rfl rfl rfl rfl).2 (by norm_num)).2
  · have h := ((hP (c6Payment 50) 50 rfl rfl rfl rfl).1 (by norm_num)).2
      (by decide)
    rw [h]; decide
  · have h := ((hP (c6Payment 500) 500 rfl rfl rfl rfl).1 (by norm_num)).2
      (by decide)
    rw [h]; decide
  · exact ((hP (c6Payment (4999/100)) (4999/100) rfl rfl rfl rfl).2
      (by norm_num)).2

/-- C10: a Student row with a null email that passes the id and city
checks does not break the pipeline: the pandas comparison
`email.str.strip() != email` is true on NaN, so the row is flagged
"Whitespace in email", kept, and written to silver with its email still
missing. -/
theorem c10_null_email_kept (s : StudentRow)
    (hid : s.student_id.isNone = false)
    (hcity : studentCityMask s = false)
    (hem : s.email = none) :
    (buildSilver ⟨[s], [], [], [], []⟩).students =
      [{ s with email := none, name := s.name.map pyTitle }] ∧
    (∀ r ∈ (buildSilver ⟨[s], [], [], [], []⟩).students, r.email = none) ∧
    AuditEntry.mk "students" (RejectedData.student s) "Whitespace in email"
      ∈ (buildSilver ⟨[s], [], [], [], []⟩).audit := by
  obtain ⟨idv, hidv⟩ : ∃ v, s.student_id = some v := by
    cases h : s.student_id with
    | none => rw [h] at hid; simp at hid
    | some v => exact ⟨v, rfl⟩
  have hmask : studentEmailMask s = true := by
    simp [studentEmailMask, hem]
  have hded : dedupBy (fun r : StudentRow => r.student_id) [s] = [s] := by
    simp [dedupBy, dedupSeen]
  refine ⟨?_, ?_, ?_⟩
  · simp [buildSilver, studentsOut, hded, studentsChecks, List.filter_cons,
      hidv, hcity, hem]
  · intro r hr
    simp [buildSilver, studentsOut, hded, studentsChecks, List.filter_cons,
      hidv, hcity, hem] at hr
    subst hr
    rfl
  · simp [buildSilver, studentsOut, hded, studentsChecks, List.filter_cons,
      hidv, hcity, hmask, hem]

/-- C10 witness at a concrete row with a null email. -/
theorem c10_witness :
    (buildSilver ⟨[⟨some 9, some "Alice", none, some "Pune", none⟩],
        [], [], [], []⟩).students =
      [⟨some 9, some "Alice", none, some "Pune", none⟩] ∧
    (∀ r ∈ (buildSilver ⟨[⟨some 9, some "Alice", none, some "Pune", none⟩],
        [], [], [], []⟩).students, r.email = none) ∧
    AuditEntry.mk "students"
      (RejectedData.student ⟨some 9, some "Alice", none, some "Pune", none⟩)
      "Whitespace in email"
      ∈ (buildSilver ⟨[⟨some 9, some "Alice", none, some "Pune", none⟩],
          [], [], [], []⟩).audit := by
  obtain ⟨h1, h2, h3⟩ := c10_null_email_kept
    ⟨some 9, some "Alice", none, some "Pune", none⟩ rfl (by decide) rfl
  refine ⟨?_, h2, h3⟩
  rw [h1]; decide

/-- A Course row whose category is not lowercase and whose price is out
of range: it is flagged by the category rule, normalized, and then
price-rejected. -/
def cMath : CourseRow :=
  ⟨some 1, some "Algebra", some "Math", some 600, some "Y"⟩

/-- C1 fails on the code: the audit record written when `cMath` is
rejected for "Price out of range [50,500]" carries category "math" — the
value produced by the earlier category-normalization rule of the same
table — not the original "Math", so rejected rows are not logged with
their original field values verbatim. -/
theorem c1_counterexample :
    (coursesChecks [cMath]).2 =
      [(cMath, "Invalid casing in category"),
       ({ cMath with category := some "math" }, "Price out of range [50,500]")]
    ∧ ({ cMath with category := some "math" } : CourseRow) ≠ cMath := by
  decide

/-- C1 amended: the audit record of a rejected row snapshots the row as
it stands when the rejecting rule runs, i.e. with the normalizations of
the earlier rules of the same table already applied (and nothing else):
a Student logged for "Invalid casing in name" carries the trimmed email,
a Course rejected for "Price out of range [50,500]" carries the
lowercased category, and a Payment rejected for "Invalid method enum"
carries the normalized method — each derived from exactly one input row. -/
theorem c1_amended_audit_snapshot :
    (∀ (l : List StudentRow) (s : StudentRow),
      (s, "Invalid casing in name") ∈ (studentsChecks l).2 →
      ∃ s0 ∈ l, s = { s0 with email := s0.email.map pyStrip }) ∧
    (∀ (l : List CourseRow) (c : CourseRow),
      (c, "Price out of range [50,500]") ∈ (coursesChecks l).2 →
      ∃ c0 ∈ l, c = { c0 with category := c0.category.map pyLower }) ∧
    (∀ (l : List PaymentRow) (p : PaymentRow),
      (p, "Invalid method enum") ∈ (paymentsChecks l).2 →
      ∃ p0 ∈ l, p = { p0 with method := some (paymentMethodNorm p0.method) })
    := by
  refine ⟨?_, ?_, ?_⟩
  · intro l s h
    simp only [studentsChecks, List.mem_append, List.mem_map,
      Prod.mk.injEq] at h
    rcases h with ((⟨r, _, _, hfal⟩ | ⟨r, _, _, hfal⟩) | ⟨r, _, _, hfal⟩) |
      ⟨r, hr, hrs, _⟩
    · exact absurd hfal.symm (by decide)
    · exact absurd hfal.symm (by decide)
    · exact absurd hfal.symm (by decide)
    · have hr2 := List.mem_of_mem_filter hr
      rcases List.mem_map.mp hr2 with ⟨s0, hs0, hmap⟩
      exact ⟨s0, List.mem_of_mem_filter (List.mem_of_mem_filter hs0),
        hrs ▸ hmap.symm⟩
  · intro l c h
    simp only [coursesChecks, List.mem_append, List.mem_map,
      Prod.mk.injEq] at h
    rcases h with ((⟨r, _, _, hfal⟩ | ⟨r, _, _, hfal⟩) | ⟨r, _, _, hfal⟩) |
      ⟨r, hr, hrs, _⟩
    · exact absurd hfal.symm (by decide)
    · exact absurd hfal.symm (by decide)
    · exact absurd hfal.symm (by decide)
    · have hr2 := List.mem_of_mem_filter hr
      rcases List.mem_map.mp hr2 with ⟨c0, hc0, hmap⟩
      exact ⟨c0, List.mem_of_mem_filter (List.mem_of_mem_filter hc0),
        hrs ▸ hmap.symm⟩
  · intro l p h
    simp only [paymentsChecks, List.mem_append, List.mem_map,
      Prod.mk.injEq] at h
    rcases h with (((⟨r, _, _, hfal⟩ | ⟨r, _, _, hfal⟩) | ⟨r, _, _, hfal⟩) |
      ⟨r, _, _, hfal⟩) | ⟨r, hr, hrs, _⟩
    · exact absurd hfal.symm (by decide)
    · exact absurd hfal.symm (by decide)
    · exact absurd hfal.symm (by decide)
    · exact absurd hfal.symm (by decide)
    · have hr2 := List.mem_of_mem_filter hr
      rcases List.mem_map.mp hr2 with ⟨p0, hp0, hmap⟩
      refine ⟨p0, ?_, hrs ▸ hmap.symm⟩
      exact List.mem_of_mem_filter (List.mem_of_mem_filter
        (List.mem_of_mem_filter (List.mem_of_mem_filter hp0)))

/-- C1 amended witness: the price-rejection audit entry of `cMath` is the
lowercase-categorized image of the single input row. -/
theorem c1_amended_witness :
    ∃ c0 ∈ [cMath], ({ cMath with category := some "math" } : CourseRow) =
      { c0 with category := c0.category.map pyLower } :=
  c1_amended_audit_snapshot.2.1 [cMath]
    { cMath with category := some "math" } (by decide)

/-- Position of each students reason in the table's ordered rule list
(0 for strings that are no students reason). -/
def studentRuleIdx : String → Nat
  | "Non-numeric student_id" => 1
  | "Missing city" => 2
  | "Whitespace in email" => 3
  | "Invalid casing in name" => 4
  | _ => 0

/-- The students reasons whose rule drops the row (rules 3 and 4 only
flag and keep). -/
def studentDropReasons : List String :=
  ["Non-numeric student_id", "Missing city"]

/-- Position of each courses reason in the table's ordered rule list. -/
def courseRuleIdx : String → Nat
  | "Non-numeric course_id" => 1
  | "Non-numeric price" => 2
  | "Invalid casing in category" => 3
  | "Price out of range [50,500]" => 4
  | _ => 0

/-- The courses reasons whose rule drops the row (rule 3 only flags). -/
def courseDropReasons : List String :=
  ["Non-numeric course_id", "Non-numeric price", "Price out of range [50,500]"]

/-- Position of each enrollment reason in the table's ordered rule
list. -/
def enrollmentRuleIdx : String → Nat
  | "Non-numeric enrollment_id" => 1
  | "Non-numeric student_id/course_id" => 2
  | "Invalid status enum" => 3
  | _ => 0

/-- Every enrollment rule drops its rows. -/
def enrollmentDropReasons : List String :=
  ["Non-numeric enrollment_id", "Non-numeric student_id/course_id",
   "Invalid status enum"]

/-- Position of each assessment reason in the table's ordered rule
list. -/
def assessmentRuleIdx : String → Nat
  | "Non-numeric assessment_id" => 1
  | "Non-numeric student_id/course_id" => 2
  | "Non-numeric score" => 3
  | "Score out of range [0,100]" => 4
  | _ => 0

/-- Every assessment rule drops its rows. -/
def assessmentDropReasons : List String :=
  ["Non-numeric assessment_id", "Non-numeric student_id/course_id",
   "Non-numeric score", "Score out of range [0,100]"]

/-- Position of each payments reason in the table's ordered rule list. -/
def paymentRuleIdx : String → Nat
  | "Non-numeric payment_id" => 1
  | "Non-numeric student_id/course_id" => 2
  | "Non-numeric amount" => 3
  | "Amount out of range [50,500]" => 4
  | "Invalid method enum" => 5
  | _ => 0

/-- Every payments rule drops its rows. -/
def paymentDropReasons : List String :=
  ["Non-numeric payment_id", "Non-numeric student_id/course_id",
   "Non-numeric amount", "Amount out of range [50,500]",
   "Invalid method enum"]

/-- Every students audit entry records which masks its row satisfied at
logging time: each rule only sees survivors of all earlier rules. -/
theorem studentsRej_facts {l : List StudentRow} {s : StudentRow}
    {r : String} (h : (s, r) ∈ (studentsChecks l).2) :
    (r = "Non-numeric student_id" ∧ s.student_id.isNone = true) ∨
    (r = "Missing city" ∧ s.student_id.isNone = false ∧
      studentCityMask s = true) ∨
    (r = "Whitespace in email" ∧ s.student_id.isNone = false ∧
      studentCityMask s = false) ∨
    (r = "Invalid casing in name" ∧ s.student_id.isNone = false ∧
      studentCityMask s = false) := by
  simp only [studentsChecks, List.mem_append, List.mem_map,
    Prod.mk.injEq] at h
  rcases h with ((⟨x, hx, hxs, hxr⟩ | ⟨x, hx, hxs, hxr⟩) |
    ⟨x, hx, hxs, hxr⟩) | ⟨x, hx, hxs, hxr⟩
  · left
    refine ⟨hxr.symm, ?_⟩
    rw [← hxs]
    simpa using (List.mem_filter.mp hx).2
  · right; left
    refine ⟨hxr.symm, ?_, ?_⟩ <;> rw [← hxs]
    · simpa using (List.mem_filter.mp (List.mem_of_mem_filter hx)).2
    · exact (List.mem_filter.mp hx).2
  · right; right; left
    refine ⟨hxr.symm, ?_, ?_⟩ <;> rw [← hxs]
    · simpa using (List.mem_filter.mp
        (List.mem_of_mem_filter (List.mem_of_mem_filter hx))).2
    · simpa using (List.mem_filter.mp (List.mem_of_mem_filter hx)).2
  · right; right; right
    have hx1 := List.mem_of_mem_filter hx
    rcases List.mem_map.mp hx1 with ⟨s0, hs0, hmap⟩
    have h1 : s0.student_id.isNone = false := by
      simpa using (List.mem_filter.mp (List.mem_of_mem_filter hs0)).2
    have h2 : studentCityMask s0 = false := by
      simpa using (List.mem_filter.mp hs0).2
    refine ⟨hxr.symm, ?_, ?_⟩ <;> rw [← hxs, ← hmap]
    · exact h1
    · exact h2

/-- Every kept students row passed the two drop rules. -/
theorem studentsKept_facts {l : List StudentRow} {s : StudentRow}
    (h : s ∈ (studentsChecks l).1) :
    s.student_id.isNone = false ∧ studentCityMask s = false := by
  simp only [studentsChecks, List.mem_map] at h
  rcases h with ⟨x, ⟨y, hy, hy2⟩, hx2⟩
  have h1 : y.student_id.isNone = false := by
    simpa using (List.mem_filter.mp (List.mem_of_mem_filter hy)).2
  have h2 : studentCityMask y = false := by
    simpa using (List.mem_filter.mp hy).2
  constructor <;> rw [← hx2, ← hy2]
  · exact h1
  · exact h2

/-- Every courses audit entry records which masks its row satisfied at
logging time. -/
theorem coursesRej_facts {l : List CourseRow} {s : CourseRow}
    {r : String} (h : (s, r) ∈ (coursesChecks l).2) :
    (r = "Non-numeric course_id" ∧ s.course_id.isNone = true) ∨
    (r = "Non-numeric price" ∧ s.course_id.isNone = false ∧
      s.price.isNone = true) ∨
    (r = "Invalid casing in category" ∧ s.course_id.isNone = false ∧
      s.price.isNone = false ∧ courseCategoryMask s = true) ∨
    (r = "Price out of range [50,500]" ∧ s.course_id.isNone = false ∧
      s.price.isNone = false ∧ coursePriceOutMask s = true) := by
  simp only [coursesChecks, List.mem_append, List.mem_map,
    Prod.mk.injEq] at h
  rcases h with ((⟨x, hx, hxs, hxr⟩ | ⟨x, hx, hxs, hxr⟩) |
    ⟨x, hx, hxs, hxr⟩) | ⟨x, hx, hxs, hxr⟩
  · left
    refine ⟨hxr.symm, ?_⟩
    rw [← hxs]
    simpa using (List.mem_filter.mp hx).2
  · right; left
    refine ⟨hxr.symm, ?_, ?_⟩ <;> rw [← hxs]
    · simpa using (List.mem_filter.mp (List.mem_of_mem_filter hx)).2
    · exact (List.mem_filter.mp hx).2
  · right; right; left
    refine ⟨hxr.symm, ?_, ?_, ?_⟩ <;> rw [← hxs]
    · simpa using (List.mem_filter.mp
        (List.mem_of_mem_filter (List.mem_of_mem_filter hx))).2
    · simpa using (List.mem_filter.mp (List.mem_of_mem_filter hx)).2
    · exact (List.mem_filter.mp hx).2
  · right; right; right
    have hx1 := List.mem_of_mem_filter hx
    rcases List.mem_map.mp hx1 with ⟨c0, hc0, hmap⟩
    have h1 : c0.course_id.isNone = false := by
      simpa using (List.mem_filter.mp (List.mem_of_mem_filter hc0)).2
    have h2 : c0.price.isNone = false := by
      simpa using (List.mem_filter.mp hc0).2
    refine ⟨hxr.symm, ?_, ?_, ?_⟩
    · rw [← hxs, ← hmap]; exact h1
    · rw [← hxs, ← hmap]; exact h2
    · rw [← hxs]; exact (List.mem_filter.mp hx).2

/-- Every kept courses row passed the three drop rules. -/
theorem coursesKept_facts {l : List CourseRow} {s : CourseRow}
    (h : s ∈ (coursesChecks l).1) :
    s.course_id.isNone = false ∧ s.price.isNone = false ∧
      coursePriceOutMask s = false := by
  simp only [coursesChecks, List.mem_filter, List.mem_map] at h
  rcases h with ⟨⟨y, hy, hy2⟩, hout⟩
  refine ⟨?_, ?_, ?_⟩
  · rw [← hy2]; simpa using hy.1.2
  · rw [← hy2]; simpa using hy.2
  · simpa using hout

/-- Every enrollment audit entry records which masks its row satisfied
at logging time. -/
theorem enrollmentRej_facts {l : List EnrollmentRow} {s : EnrollmentRow}
    {r : String} (h : (s, r) ∈ (enrollmentChecks l).2) :
    (r = "Non-numeric enrollment_id" ∧ s.enrollment_id.isNone = true) ∨
    (r = "Non-numeric student_id/course_id" ∧
      s.enrollment_id.isNone = false ∧
      (s.student_id.isNone || s.course_id.isNone) = true) ∨
    (r = "Invalid status enum" ∧ s.enrollment_id.isNone = false ∧
      (s.student_id.isNone || s.course_id.isNone) = false ∧
      enrollmentStatusMask s = true) := by
  simp only [enrollmentChecks, List.mem_append, List.mem_map,
    Prod.mk.injEq] at h
  rcases h with (⟨x, hx, hxs, hxr⟩ | ⟨x, hx, hxs, hxr⟩) |
    ⟨x, hx, hxs, hxr⟩
  · left
    refine ⟨hxr.symm, ?_⟩
    rw [← hxs]
    simpa using (List.mem_filter.mp hx).2
  · right; left
    refine ⟨hxr.symm, ?_, ?_⟩ <;> rw [← hxs]
    · simpa using (List.mem_filter.mp (List.mem_of_mem_filter hx)).2
    · exact (List.mem_filter.mp hx).2
  · right; right
    refine ⟨hxr.symm, ?_, ?_, ?_⟩ <;> rw [← hxs]
    · simpa using (List.mem_filter.mp
        (List.mem_of_mem_filter (List.mem_of_mem_filter hx))).2
    · simpa using (List.mem_filter.mp (List.mem_of_mem_filter hx)).2
    · exact (List.mem_filter.mp hx).2

/-- Every kept enrollment row passed the three drop rules. -/
theorem enrollmentKept_facts {l : List EnrollmentRow} {s : EnrollmentRow}
    (h : s ∈ (enrollmentChecks l).1) :
    s.enrollment_id.isNone = false ∧
    (s.student_id.isNone || s.course_id.isNone) = false ∧
    enrollmentStatusMask s = false := by
  refine ⟨?_, ?_, ?_⟩
  · simpa using (List.mem_filter.mp (List.mem_of_mem_filter
      (List.mem_of_mem_filter h))).2
  · simpa using (List.mem_filter.mp (List.mem_of_mem_filter h)).2
  · simpa using (List.mem_filter.mp h).2

/-- Every assessment audit entry records which masks its row satisfied
at logging time. -/
theorem assessmentRej_facts {l : List AssessmentRow} {s : AssessmentRow}
    {r : String} (h : (s, r) ∈ (assessmentChecks l).2) :
    (r = "Non-numeric assessment_id" ∧ s.assessment_id.isNone = true) ∨
    (r = "Non-numeric student_id/course_id" ∧
      s.assessment_id.isNone = false ∧
      (s.student_id.isNone || s.course_id.isNone) = true) ∨
    (r = "Non-numeric score" ∧ s.assessment_id.isNone = false ∧
      (s.student_id.isNone || s.course_id.isNone) = false ∧
      s.score.isNone = true) ∨
    (r = "Score out of range [0,100]" ∧ s.assessment_id.isNone = false ∧
      (s.student_id.isNone || s.course_id.isNone) = false ∧
      s.score.isNone = false ∧ assessmentScoreOutMask s = true) := by
  simp only [assessmentChecks, List.mem_append, List.mem_map,
    Prod.mk.injEq] at h
  rcases h with ((⟨x, hx, hxs, hxr⟩ | ⟨x, hx, hxs, hxr⟩) |
    ⟨x, hx, hxs, hxr⟩) | ⟨x, hx, hxs, hxr⟩
  · left
    refine ⟨hxr.symm, ?_⟩
    rw [← hxs]
    simpa using (List.mem_filter.mp hx).2
  · right; left
    refine ⟨hxr.symm, ?_, ?_⟩ <;> rw [← hxs]
    · simpa using (List.mem_filter.mp (List.mem_of_mem_filter hx)).2
    · exact (List.mem_filter.mp hx).2
  · right; right; left
    refine ⟨hxr.symm, ?_, ?_, ?_⟩ <;> rw [← hxs]
    · simpa using (List.mem_filter.mp
        (List.mem_of_mem_filter (List.mem_of_mem_filter hx))).2
    · simpa using (List.mem_filter.mp (List.mem_of_mem_filter hx)).2
    · exact (List.mem_filter.mp hx).2
  · right; right; right
    refine ⟨hxr.symm, ?_, ?_, ?_, ?_⟩ <;> rw [← hxs]
    · simpa using (List.mem_filter.mp (List.mem_of_mem_filter
        (List.mem_of_mem_filter (List.mem_of_mem_filter hx)))).2
    · simpa using (List.mem_filter.mp
        (List.mem_of_mem_filter (List.mem_of_mem_filter hx))).2
    · simpa using (List.mem_filter.mp (List.mem_of_mem_filter hx)).2
    · exact (List.mem_filter.mp hx).2

/-- Every kept assessment row passed the four drop rules. -/
theorem assessmentKept_facts {l : List AssessmentRow} {s : AssessmentRow}
    (h : s ∈ (assessmentChecks l).1) :
    s.assessment_id.isNone = false ∧
    (s.student_id.isNone || s.course_id.isNone) = false ∧
    s.score.isNone = false ∧ assessmentScoreOutMask s = false := by
  refine ⟨?_, ?_, ?_, ?_⟩
  · simpa using (List.mem_filter.mp (List.mem_of_mem_filter
      (List.mem_of_mem_filter (List.mem_of_mem_filter h)))).2
  · simpa using (List.mem_filter.mp
      (List.mem_of_mem_filter (List.mem_of_mem_filter h))).2
  · simpa using (List.mem_filter.mp (List.mem_of_mem_filter h)).2
  · simpa using (List.mem_filter.mp h).2

/-- Every payments audit entry records which masks its row satisfied at
logging time; in particular an "Invalid method enum" row has an in-range
amount (it survived the amount rule before the method rule ran). -/
theorem paymentsRej_facts {l : List PaymentRow} {s : PaymentRow}
    {r : String} (h : (s, r) ∈ (paymentsChecks l).2) :
    (r = "Non-numeric payment_id" ∧ s.payment_id.isNone = true) ∨
    (r = "Non-numeric student_id/course_id" ∧
      s.payment_id.isNone = false ∧
      (s.student_id.isNone || s.course_id.isNone) = true) ∨
    (r = "Non-numeric amount" ∧ s.payment_id.isNone = false ∧
      (s.student_id.isNone || s.course_id.isNone) = false ∧
      s.amount.isNone = true) ∨
    (r = "Amount out of range [50,500]" ∧ s.payment_id.isNone = false ∧
      (s.student_id.isNone || s.course_id.isNone) = false ∧
      s.amount.isNone = false ∧ paymentAmountOutMask s = true) ∨
    (r = "Invalid method enum" ∧ s.payment_id.isNone = false ∧
      (s.student_id.isNone || s.course_id.isNone) = false ∧
      s.amount.isNone = false ∧ paymentAmountOutMask s = false ∧
      paymentMethodMask s = true) := by
  simp only [paymentsChecks, List.mem_append, List.mem_map,
    Prod.mk.injEq] at h
  rcases h with (((⟨x, hx, hxs, hxr⟩ | ⟨x, hx, hxs, hxr⟩) |
    ⟨x, hx, hxs, hxr⟩) | ⟨x, hx, hxs, hxr⟩) | ⟨x, hx, hxs, hxr⟩
  · left
    refine ⟨hxr.symm, ?_⟩
    rw [← hxs]
    simpa using (List.mem_filter.mp hx).2
  · right; left
    refine ⟨hxr.symm, ?_, ?_⟩ <;> rw [← hxs]
    · simpa using (List.mem_filter.mp (List.mem_of_mem_filter hx)).2
    · exact (List.mem_filter.mp hx).2
  · right; right; left
    refine ⟨hxr.symm, ?_, ?_, ?_⟩ <;> rw [← hxs]
    · simpa using (List.mem_filter.mp
        (List.mem_of_mem_filter (List.mem_of_mem_filter hx))).2
    · simpa using (List.mem_filter.mp (List.mem_of_mem_filter hx)).2
    · exact (List.mem_filter.mp hx).2
  · right; right; right; left
    refine ⟨hxr.symm, ?_, ?_, ?_, ?_⟩ <;> rw [← hxs]
    · simpa using (List.mem_filter.mp (List.mem_of_mem_filter
        (List.mem_of_mem_filter (List.mem_of_mem_filter hx)))).2
    · simpa using (List.mem_filter.mp
        (List.mem_of_mem_filter (List.mem_of_mem_filter hx))).2
    · simpa using (List.mem_filter.mp (List.mem_of_mem_filter hx)).2
    · exact (List.mem_filter.mp hx).2
  · right; right; right; right
    have hx1 := List.mem_of_mem_filter hx
    rcases List.mem_map.mp hx1 with ⟨p0, hp0, hmap⟩
    have h1 : p0.payment_id.isNone = false := by
      simpa using (List.mem_filter.mp (List.mem_of_mem_filter
        (List.mem_of_mem_filter (List.mem_of_mem_filter hp0)))).2
    have h2 : (p0.student_id.isNone || p0.course_id.isNone) = false := by
      simpa using (List.mem_filter.mp
        (List.mem_of_mem_filter (List.mem_of_mem_filter hp0))).2
    have h3 : p0.amount.isNone = false := by
      simpa using (List.mem_filter.mp (List.mem_of_mem_filter hp0)).2
    have h4 : paymentAmountOutMask p0 = false := by
      simpa using (List.mem_filter.mp hp0).2
    refine ⟨hxr.symm, ?_, ?_, ?_, ?_, ?_⟩
    · rw [← hxs, ← hmap]; exact h1
    · rw [← hxs, ← hmap]; exact h2
    · rw [← hxs, ← hmap]; exact h3
    · rw [← hxs, ← hmap]
      exact h4
    · rw [← hxs]; exact (List.mem_filter.mp hx).2

/-- Every kept payments row passed the five drop rules. -/
theorem paymentsKept_facts {l : List PaymentRow} {s : PaymentRow}
    (h : s ∈ (paymentsChecks l).1) :
    s.payment_id.isNone = false ∧
    (s.student_id.isNone || s.course_id.isNone) = false ∧
    s.amount.isNone = false ∧ paymentAmountOutMask s = false ∧
    paymentMethodMask s = false := by
  have hmm : paymentMethodMask s = false := by
    simpa using (List.mem_filter.mp h).2
  have hx1 := List.mem_of_mem_filter h
  rcases List.mem_map.mp hx1 with ⟨p0, hp0, hmap⟩
  have h1 : p0.payment_id.isNone = false := by
    simpa using (List.mem_filter.mp (List.mem_of_mem_filter
      (List.mem_of_mem_filter (List.mem_of_mem_filter hp0)))).2
  have h2 : (p0.student_id.isNone || p0.course_id.isNone) = false := by
    simpa using (List.mem_filter.mp
      (List.mem_of_mem_filter (List.mem_of_mem_filter hp0))).2
  have h3 : p0.amount.isNone = false := by
    simpa using (List.mem_filter.mp (List.mem_of_mem_filter hp0)).2
  have h4 : paymentAmountOutMask p0 = false := by
    simpa using (List.mem_filter.mp hp0).2
  refine ⟨?_, ?_, ?_, ?_, hmm⟩
  · rw [← hmap]; exact h1
  · rw [← hmap]; exact h2
  · rw [← hmap]; exact h3
  · rw [← hmap]
    exact h4
def c4Stu : StudentRow :=
  ⟨some 7, some "Alice", some "a@x.com", some "Pune", none⟩

/-- A valid Course referenced by the C4 scenario payment. -/
def c4Crs : CourseRow :=
  ⟨some 3, some "Algebra", some "math", some 100, some "Bob"⟩

/-- The C4 scenario payment:
`{payment_id:1, student_id:7, course_id:3, amount:600, method:" upi "}`. -/
def c4Pay : PaymentRow :=
  ⟨some 1, some 7, some 3, some 600, none, some " upi "⟩

/-- The C4 scenario bronze snapshot: student 7 and course 3 are valid. -/
def c4Bronze : BronzeData := ⟨[c4Stu], [c4Crs], [], [], [c4Pay]⟩

/-- C4: for every table, a row rejected (dropped) by rule k leaves the
pipeline and is not evaluated against — and receives no audit record
from — any subsequent rule of the same table: for each table, any other
audit record carried by a drop-logged row comes from a rule no later
than the dropping one, and the row is absent from the kept output.
Additionally for payments: every "Amount out of range [50,500]" audit
snapshot is an untouched input row (its method never normalized);
"Invalid method enum" entries only arise from rows whose amount already
passed the range rule; every input row has exactly one fate; and the
concrete Payments scenario yields exactly one audit record, with reason
"Amount out of range [50,500]" and the method still " upi ". -/
theorem c4_reject_short_circuit :
    (∀ (l : List StudentRow) (s : StudentRow) (rd ro : String),
      rd ∈ studentDropReasons → (s, rd) ∈ (studentsChecks l).2 →
      ((s, ro) ∈ (studentsChecks l).2 →
        studentRuleIdx ro ≤ studentRuleIdx rd) ∧
      s ∉ (studentsChecks l).1) ∧
    (∀ (l : List CourseRow) (c : CourseRow) (rd ro : String),
      rd ∈ courseDropReasons → (c, rd) ∈ (coursesChecks l).2 →
      ((c, ro) ∈ (coursesChecks l).2 →
        courseRuleIdx ro ≤ courseRuleIdx rd) ∧
      c ∉ (coursesChecks l).1) ∧
    (∀ (l : List EnrollmentRow) (e : EnrollmentRow) (rd ro : String),
      rd ∈ enrollmentDropReasons → (e, rd) ∈ (enrollmentChecks l).2 →
      ((e, ro) ∈ (enrollmentChecks l).2 →
        enrollmentRuleIdx ro ≤ enrollmentRuleIdx rd) ∧
      e ∉ (enrollmentChecks l).1) ∧
    (∀ (l : List AssessmentRow) (a : AssessmentRow) (rd ro : String),
      rd ∈ assessmentDropReasons → (a, rd) ∈ (assessmentChecks l).2 →
      ((a, ro) ∈ (assessmentChecks l).2 →
        assessmentRuleIdx ro ≤ assessmentRuleIdx rd) ∧
      a ∉ (assessmentChecks l).1) ∧
    (∀ (l : List PaymentRow) (p : PaymentRow) (rd ro : String),
      rd ∈ paymentDropReasons → (p, rd) ∈ (paymentsChecks l).2 →
      ((p, ro) ∈ (paymentsChecks l).2 →
        paymentRuleIdx ro ≤ paymentRuleIdx rd) ∧
      p ∉ (paymentsChecks l).1) ∧
    (∀ (l : List PaymentRow) (p : PaymentRow),
      (p, "Amount out of range [50,500]") ∈ (paymentsChecks l).2 → p ∈ l) ∧
    (∀ (l : List PaymentRow) (p : PaymentRow),
      (p, "Invalid method enum") ∈ (paymentsChecks l).2 →
      ∃ a, p.amount = some a ∧ 50 ≤ a ∧ a ≤ 500) ∧
    (∀ l : List PaymentRow,
      (paymentsChecks l).1.length + (paymentsChecks l).2.length = l.length) ∧
    (buildSilver c4Bronze).payments = [] ∧
    (buildSilver c4Bronze).audit =
      [⟨"payments", RejectedData.payment c4Pay,
        "Amount out of range [50,500]"⟩] ∧
    c4Pay.method = some " upi " := by
  refine ⟨?_, ?_, ?_, ?_, ?_, ?_, ?_, ?_, by decide, by decide, rfl⟩
  · intro l s rd ro hd h1
    have f1 := studentsRej_facts h1
    simp only [studentDropReasons, List.mem_cons, List.not_mem_nil,
      or_false] at hd
    constructor
    · intro h2
      have f2 := studentsRej_facts h2
      rcases hd with rfl | rfl <;>
        rcases f1 with ⟨hr, hf⟩ | ⟨hr, hf⟩ | ⟨hr, hf⟩ | ⟨hr, hf⟩ <;>
        rcases f2 with ⟨hr2, hf2⟩ | ⟨hr2, hf2⟩ | ⟨hr2, hf2⟩ | ⟨hr2, hf2⟩ <;>
        first
          | exact absurd hr (by decide)
          | (subst hr2; first | decide | simp_all)
    · intro hk
      have fk := studentsKept_facts hk
      rcases hd with rfl | rfl <;>
        rcases f1 with ⟨hr, hf⟩ | ⟨hr, hf⟩ | ⟨hr, hf⟩ | ⟨hr, hf⟩ <;>
        first
          | exact absurd hr (by decide)
          | simp_all
  · intro l c rd ro hd h1
    have f1 := coursesRej_facts h1
    simp only [courseDropReasons, List.mem_cons, List.not_mem_nil,
      or_false] at hd
    constructor
    · intro h2
      have f2 := coursesRej_facts h2
      rcases hd with rfl | rfl | rfl <;>
        rcases f1 with ⟨hr, hf⟩ | ⟨hr, hf⟩ | ⟨hr, hf⟩ | ⟨hr, hf⟩ <;>
        rcases f2 with ⟨hr2, hf2⟩ | ⟨hr2, hf2⟩ | ⟨hr2, hf2⟩ | ⟨hr2, hf2⟩ <;>
        first
          | exact absurd hr (by decide)
          | (subst hr2; first | decide | simp_all)
    · intro hk
      have fk := coursesKept_facts hk
      rcases hd with rfl | rfl | rfl <;>
        rcases f1 with ⟨hr, hf⟩ | ⟨hr, hf⟩ | ⟨hr, hf⟩ | ⟨hr, hf⟩ <;>
        first
          | exact absurd hr (by decide)
          | simp_all
  · intro l e rd ro hd h1
    have f1 := enrollmentRej_facts h1
    simp only [enrollmentDropReasons, List.mem_cons, List.not_mem_nil,
      or_false] at hd
    constructor
    · intro h2
      have f2 := enrollmentRej_facts h2
      rcases hd with rfl | rfl | rfl <;>
        rcases f1 with ⟨hr, hf⟩ | ⟨hr, hf⟩ | ⟨hr, hf⟩ <;>
        rcases f2 with ⟨hr2, hf2⟩ | ⟨hr2, hf2⟩ | ⟨hr2, hf2⟩ <;>
        first
          | exact absurd hr (by decide)
          | (subst hr2; first | decide | simp_all)
    · intro hk
      have fk := enrollmentKept_facts hk
      rcases hd with rfl | rfl | rfl <;>
        rcases f1 with ⟨hr, hf⟩ | ⟨hr, hf⟩ | ⟨hr, hf⟩ <;>
        first
          | exact absurd hr (by decide)
          | simp_all
  · intro l a rd ro hd h1
    have f1 := assessmentRej_facts h1
    simp only [assessmentDropReasons, List.mem_cons, List.not_mem_nil,
      or_false] at hd
    constructor
    · intro h2
      have f2 := assessmentRej_facts h2
      rcases hd with rfl | rfl | rfl | rfl <;>
        rcases f1 with ⟨hr, hf⟩ | ⟨hr, hf⟩ | ⟨hr, hf⟩ | ⟨hr, hf⟩ <;>
        rcases f2 with ⟨hr2, hf2⟩ | ⟨hr2, hf2⟩ | ⟨hr2, hf2⟩ | ⟨hr2, hf2⟩ <;>
        first
          | exact absurd hr (by decide)
          | (subst hr2; first | decide | simp_all)
    · intro hk
      have fk := assessmentKept_facts hk
      rcases hd with rfl | rfl | rfl | rfl <;>
        rcases f1 with ⟨hr, hf⟩ | ⟨hr, hf⟩ | ⟨hr, hf⟩ | ⟨hr, hf⟩ <;>
        first
          | exact absurd hr (by decide)
          | simp_all
  · intro l p rd ro hd h1
    have f1 := paymentsRej_facts h1
    simp only [paymentDropReasons, List.mem_cons, List.not_mem_nil,
      or_false] at hd
    constructor
    · intro h2
      have f2 := paymentsRej_facts h2
      rcases hd with rfl | rfl | rfl | rfl | rfl <;>
        rcases f1 with ⟨hr, hf⟩ | ⟨hr, hf⟩ | ⟨hr, hf⟩ | ⟨hr, hf⟩ |
          ⟨hr, hf⟩ <;>
        rcases f2 with ⟨hr2, hf2⟩ | ⟨hr2, hf2⟩ | ⟨hr2, hf2⟩ | ⟨hr2, hf2⟩ |
          ⟨hr2, hf2⟩ <;>
        first
          | exact absurd hr (by decide)
          | (subst hr2; first | decide | simp_all)
    · intro hk
      have fk := paymentsKept_facts hk
      rcases hd with rfl | rfl | rfl | rfl | rfl <;>
        rcases f1 with ⟨hr, hf⟩ | ⟨hr, hf⟩ | ⟨hr, hf⟩ | ⟨hr, hf⟩ |
          ⟨hr, hf⟩ <;>
        first
          | exact absurd hr (by decide)
          | simp_all
  · intro l p h
    simp only [paymentsChecks, List.mem_append, List.mem_map,
      Prod.mk.injEq] at h
    rcases h with (((⟨r, hr, hrs, _⟩ | ⟨r, hr, hrs, _⟩) |
      ⟨r, hr, hrs, _⟩) | ⟨r, hr, hrs, hfal⟩) | ⟨r, hr, _, hfal⟩
    · exact hrs ▸ List.mem_of_mem_filter hr
    · exact hrs ▸ List.mem_of_mem_filter (List.mem_of_mem_filter hr)
    · exact hrs ▸ List.mem_of_mem_filter (List.mem_of_mem_filter
        (List.mem_of_mem_filter hr))
    · exact hrs ▸ List.mem_of_mem_filter (List.mem_of_mem_filter
        (List.mem_of_mem_filter (List.mem_of_mem_filter hr)))
    · exact absurd hfal.symm (by decide)
  · intro l p h
    simp only [paymentsChecks, List.mem_append, List.mem_map,
      Prod.mk.injEq] at h
    rcases h with (((⟨r, _, _, hfal⟩ | ⟨r, _, _, hfal⟩) |
      ⟨r, _, _, hfal⟩) | ⟨r, _, _, hfal⟩) | ⟨r, hr, hrs, _⟩
    · exact absurd hfal.symm (by decide)
    · exact absurd hfal.symm (by decide)
    · exact absurd hfal.symm (by decide)
    · exact absurd hfal.symm (by decide)
    · have hr2 := List.mem_of_mem_filter hr
      rcases List.mem_map.mp hr2 with ⟨p0, hp0, hmap⟩
      have hp0in := List.mem_filter.mp hp0
      have hnot : paymentAmountOutMask p0 = false := by
        simpa using hp0in.2
      cases ha : p0.amount with
      | none => rw [paymentAmountOutMask, ha] at hnot; simp at hnot
      | some a =>
        rw [paymentAmountOutMask, ha] at hnot
        simp only [Bool.not_eq_false', decide_eq_true_eq] at hnot
        refine ⟨a, ?_, hnot.1, hnot.2⟩
        rw [← hrs, ← hmap]
        exact ha
  · intro l
    have h1 := length_filter_not (fun r : PaymentRow => r.payment_id.isNone) l
    have h2 := length_filter_not
      (fun r : PaymentRow => r.student_id.isNone || r.course_id.isNone)
      (l.filter (fun r => !r.payment_id.isNone))
    have h3 := length_filter_not (fun r : PaymentRow => r.amount.isNone)
      ((l.filter (fun r => !r.payment_id.isNone)).filter
        (fun r => !(r.student_id.isNone || r.course_id.isNone)))
    have h4 := length_filter_not paymentAmountOutMask
      (((l.filter (fun r => !r.payment_id.isNone)).filter
        (fun r => !(r.student_id.isNone || r.course_id.isNone))).filter
        (fun r => !r.amount.isNone))
    have h5 := length_filter_not paymentMethodMask
      (((((l.filter (fun r => !r.payment_id.isNone)).filter
        (fun r => !(r.student_id.isNone || r.course_id.isNone))).filter
        (fun r => !r.amount.isNone)).filter
        (fun r => !paymentAmountOutMask r)).map
        (fun r => { r with method := some (paymentMethodNorm r.method) }))
    simp only [paymentsChecks, List.length_append, List.length_map] at *
    omega

/-- C4 witness: the amount-rejected scenario row is logged verbatim from
the input list, and the short-circuit conjunct shows it absent from the
kept payments. -/
theorem c4_witness :
    c4Pay ∈ [c4Pay] ∧ c4Pay ∉ (paymentsChecks [c4Pay]).1 :=
  ⟨c4_reject_short_circuit.2.2.2.2.2.1 [c4Pay] c4Pay (by decide),
   (c4_reject_short_circuit.2.2.2.2.1 [c4Pay] c4Pay
      "Amount out of range [50,500]" "Invalid method enum" (by decide)
      (by decide)).2⟩

/-- C3: the FK pass uses the surviving (post-rejection) Student and
Course id sets after all per-table pipelines: any Enrollment, Assessment
or Payment row that survived its own table's checks but references a
student_id or course_id absent from the surviving sets is dropped from
silver and logged with reason "Invalid FK student_id/course_id". -/
theorem c3_fk_cascade (b : BronzeData) :
    (∀ e ∈ (enrollmentOut b).1,
      (e.student_id ∉ validStudentIds b ∨ e.course_id ∉ validCourseIds b) →
      e ∉ (buildSilver b).enrollment ∧
      AuditEntry.mk "enrollment" (RejectedData.enrollment e)
        "Invalid FK student_id/course_id" ∈ (buildSilver b).audit) ∧
    (∀ a ∈ (assessmentOut b).1,
      (a.student_id ∉ validStudentIds b ∨ a.course_id ∉ validCourseIds b) →
      a ∉ (buildSilver b).assessment ∧
      AuditEntry.mk "assessment" (RejectedData.assessment a)
        "Invalid FK student_id/course_id" ∈ (buildSilver b).audit) ∧
    (∀ p ∈ (paymentsOut b).1,
      (p.student_id ∉ validStudentIds b ∨ p.course_id ∉ validCourseIds b) →
      p ∉ (buildSilver b).payments ∧
      AuditEntry.mk "payments" (RejectedData.payment p)
        "Invalid FK student_id/course_id" ∈ (buildSilver b).audit) := by
  refine ⟨?_, ?_, ?_⟩
  · intro e he hbad
    have hmask : enrollmentFkMask b e = true := by
      rcases hbad with h | h <;> simp [enrollmentFkMask, h]
    constructor
    · intro hcon
      have h2 := (List.mem_filter.mp hcon).2
      rw [hmask] at h2
      simp at h2
    · exact List.mem_append_left _ (List.mem_append_left _
        (List.mem_append_right _ (List.mem_map_of_mem _
          (List.mem_filter.mpr ⟨he, hmask⟩))))
  · intro a ha hbad
    have hmask : assessmentFkMask b a = true := by
      rcases hbad with h | h <;> simp [assessmentFkMask, h]
    constructor
    · intro hcon
      have h2 := (List.mem_filter.mp hcon).2
      rw [hmask] at h2
      simp at h2
    · exact List.mem_append_left _ (List.mem_append_right _
        (List.mem_map_of_mem _ (List.mem_filter.mpr ⟨ha, hmask⟩)))
  · intro p hp hbad
    have hmask : paymentFkMask b p = true := by
      rcases hbad with h | h <;> simp [paymentFkMask, h]
    constructor
    · intro hcon
      have h2 := (List.mem_filter.mp hcon).2
      rw [hmask] at h2
      simp at h2
    · exact List.mem_append_right _
        (List.mem_map_of_mem _ (List.mem_filter.mpr ⟨hp, hmask⟩))

/-- A Student that will be rejected for "Missing city". -/
def c3Stu : StudentRow := ⟨some 7, some "Alice", some "a@x.com", none, none⟩

/-- A valid Course so that only the student FK fails. -/
def c3Crs : CourseRow :=
  ⟨some 3, some "Algebra", some "math", some 100, some "Bob"⟩

/-- An Enrollment referencing the rejected student; it passes every
enrollment-table rule on its own. -/
def c3Enr : EnrollmentRow := ⟨some 1, some 7, some 3, none, some "active"⟩

/-- The C3 witness bronze snapshot. -/
def c3Bronze : BronzeData := ⟨[c3Stu], [c3Crs], [c3Enr], [], []⟩

/-- C3 witness: the student is rejected for "Missing city", so the
enrollment that passes all of its own rules is cascaded out with reason
"Invalid FK student_id/course_id". -/
theorem c3_witness :
    c3Enr ∉ (buildSilver c3Bronze).enrollment ∧
    AuditEntry.mk "enrollment" (RejectedData.enrollment c3Enr)
      "Invalid FK student_id/course_id" ∈ (buildSilver c3Bronze).audit :=
  (c3_fk_cascade c3Bronze).1 c3Enr (by decide) (Or.inl (by decide))

/-- C9: before any validation rule runs, each table is deduplicated on
its primary key, keeping the first-seen row per key, and this removal is
silent: the keys of the deduplicated list are pairwise distinct, the
survivors are a subsequence of the input, the representative of each key
is its first occurrence in input order, and running `buildSilver` on the
pre-deduplicated snapshot is indistinguishable (same silver rows, same
audit entries) from running it on the raw snapshot. -/
theorem c9_silent_dedup {α κ : Type} [DecidableEq κ] (key : α → κ) :
    (∀ l : List α, ((dedupBy key l).map key).Nodup) ∧
    (∀ l : List α, List.Sublist (dedupBy key l) l) ∧
    (∀ (l : List α) (k : κ),
      (dedupBy key l).find? (fun x => key x == k) =
        l.find? (fun x => key x == k)) ∧
    (∀ b : BronzeData, buildSilver (dedupTables b) = buildSilver b) := by
  refine ⟨dedupBy_keys_nodup key, dedupSeen_sublist key [],
    fun l k => dedupSeen_find key [] l k (List.not_mem_nil k), ?_⟩
  intro b
  have hs : studentsOut (dedupTables b) = studentsOut b := by
    simp only [studentsOut, dedupTables, dedupBy_idem]
  have hc : coursesOut (dedupTables b) = coursesOut b := by
    simp only [coursesOut, dedupTables, dedupBy_idem]
  have he : enrollmentOut (dedupTables b) = enrollmentOut b := by
    simp only [enrollmentOut, dedupTables, dedupBy_idem]
  have ha : assessmentOut (dedupTables b) = assessmentOut b := by
    simp only [assessmentOut, dedupTables, dedupBy_idem]
  have hp : paymentsOut (dedupTables b) = paymentsOut b := by
    simp only [paymentsOut, dedupTables, dedupBy_idem]
  have hmE : enrollmentFkMask (dedupTables b) = enrollmentFkMask b := by
    funext r
    simp only [enrollmentFkMask, validStudentIds, validCourseIds, hs, hc]
  have hmA : assessmentFkMask (dedupTables b) = assessmentFkMask b := by
    funext r
    simp only [assessmentFkMask, validStudentIds, validCourseIds, hs, hc]
  have hmP : paymentFkMask (dedupTables b) = paymentFkMask b := by
    funext r
    simp only [paymentFkMask, validStudentIds, validCourseIds, hs, hc]
  simp only [buildSilver, hs, hc, he, ha, hp, hmE, hmA, hmP]

/-- C7: running the cleaning pipeline twice on the same raw snapshot
yields the same silver tables as a single run (silver is
truncate-then-reload, so no duplicated rows) and exactly doubles the
audit-log growth (the audit sink is append-only, never truncated). -/
theorem c7_idempotence (b : BronzeData) (db : DBState) :
    (runSilverBuild b (runSilverBuild b db)).silver =
      (runSilverBuild b db).silver ∧
    (runSilverBuild b (runSilverBuild b db)).silver.students =
      (buildSilver b).students ∧
    (runSilverBuild b (runSilverBuild b db)).auditLog.length =
      db.auditLog.length + 2 * (buildSilver b).audit.length := by
  refine ⟨rfl, rfl, ?_⟩
  simp only [runSilverBuild, List.length_append]
  omega

/-- A valid student with key 1. -/
def c2s1 : StudentRow := ⟨some 1, some "Aa", some "e", some "Pune", none⟩

/-- A second row with the same key 1 but a missing city. -/
def c2s2 : StudentRow := ⟨some 1, none, none, none, none⟩

/-- Students [valid, invalid duplicate], in this order. -/
def c2BronzeA : BronzeData := ⟨[c2s1, c2s2], [], [], [], []⟩

/-- The same multiset of students in the opposite order. -/
def c2BronzeB : BronzeData := ⟨[c2s2, c2s1], [], [], [], []⟩

/-- C2 fails on the code for inputs with duplicated primary keys: the
first-seen-wins deduplication makes the kept/rejected partition and the
audit entries depend on row order.  The same two students in one order
give a kept row and an empty audit log; reversed, the row is rejected
with "Missing city". -/
theorem c2_counterexample :
    c2BronzeA.students.Perm c2BronzeB.students ∧
    (buildSilver c2BronzeA).students = [c2s1] ∧
    (buildSilver c2BronzeA).audit = [] ∧
    (buildSilver c2BronzeB).students = [] ∧
    (buildSilver c2BronzeB).audit =
      [⟨"students", RejectedData.student c2s2, "Missing city"⟩] :=
  ⟨List.Perm.swap c2s2 c2s1 [], by decide, by decide, by decide, by decide⟩

/-- C2 amended: for inputs whose rows have pairwise-distinct primary keys
per table, the full rule set is order-independent — permuting the bronze
rows permutes each silver table and the audit entries (same reason text
per row), leaving the kept/rejected partition unchanged as a multiset.
With duplicate keys the first-seen-wins deduplication makes the outcome
order-dependent. -/
theorem c2_amended_order_invariance (A B : BronzeData)
    (hs : A.students.Perm B.students) (hc : A.courses.Perm B.courses)
    (he : A.enrollment.Perm B.enrollment)
    (ha : A.assessment.Perm B.assessment)
    (hp : A.payments.Perm B.payments)
    (ns : (A.students.map (fun r => r.student_id)).Nodup)
    (nc : (A.courses.map (fun r => r.course_id)).Nodup)
    (ne : (A.enrollment.map (fun r => r.enrollment_id)).Nodup)
    (na : (A.assessment.map (fun r => r.assessment_id)).Nodup)
    (np : (A.payments.map (fun r => r.payment_id)).Nodup) :
    (buildSilver A).students.Perm (buildSilver B).students ∧
    (buildSilver A).courses.Perm (buildSilver B).courses ∧
    (buildSilver A).enrollment.Perm (buildSilver B).enrollment ∧
    (buildSilver A).assessment.Perm (buildSilver B).assessment ∧
    (buildSilver A).payments.Perm (buildSilver B).payments ∧
    (buildSilver A).audit.Perm (buildSilver B).audit := by
  have hOs : (studentsOut A).1.Perm (studentsOut B).1 ∧
      (studentsOut A).2.Perm (studentsOut B).2 := by
    simp only [studentsOut, dedupBy_eq_self _ ns,
      dedupBy_eq_self _ ((hs.map (fun r => r.student_id)).nodup ns)]
    exact studentsChecks_perm hs
  have hOc : (coursesOut A).1.Perm (coursesOut B).1 ∧
      (coursesOut A).2.Perm (coursesOut B).2 := by
    simp only [coursesOut, dedupBy_eq_self _ nc,
      dedupBy_eq_self _ ((hc.map (fun r => r.course_id)).nodup nc)]
    exact coursesChecks_perm hc
  have hOe : (enrollmentOut A).1.Perm (enrollmentOut B).1 ∧
      (enrollmentOut A).2.Perm (enrollmentOut B).2 := by
    simp only [enrollmentOut, dedupBy_eq_self _ ne,
      dedupBy_eq_self _ ((he.map (fun r => r.enrollment_id)).nodup ne)]
    exact enrollmentChecks_perm he
  have hOa : (assessmentOut A).1.Perm (assessmentOut B).1 ∧
      (assessmentOut A).2.Perm (assessmentOut B).2 := by
    simp only [assessmentOut, dedupBy_eq_self _ na,
      dedupBy_eq_self _ ((ha.map (fun r => r.assessment_id)).nodup na)]
    exact assessmentChecks_perm ha
  have hOp : (paymentsOut A).1.Perm (paymentsOut B).1 ∧
      (paymentsOut A).2.Perm (paymentsOut B).2 := by
    simp only [paymentsOut, dedupBy_eq_self _ np,
      dedupBy_eq_self _ ((hp.map (fun r => r.payment_id)).nodup np)]
    exact paymentsChecks_perm hp
  have hvs : (validStudentIds A).Perm (validStudentIds B) := by
    simp only [validStudentIds]
    exact hOs.1.map _
  have hvc : (validCourseIds A).Perm (validCourseIds B) := by
    simp only [validCourseIds]
    exact hOc.1.map _
  have hmE : ∀ r, enrollmentFkMask A r = enrollmentFkMask B r := by
    intro r
    simp only [enrollmentFkMask]
    rw [decide_eq_decide.mpr hvs.mem_iff, decide_eq_decide.mpr hvc.mem_iff]
  have hmA : ∀ r, assessmentFkMask A r = assessmentFkMask B r := by
    intro r
    simp only [assessmentFkMask]
    rw [decide_eq_decide.mpr hvs.mem_iff, decide_eq_decide.mpr hvc.mem_iff]
  have hmP : ∀ r, paymentFkMask A r = paymentFkMask B r := by
    intro r
    simp only [paymentFkMask]
    rw [decide_eq_decide.mpr hvs.mem_iff, decide_eq_decide.mpr hvc.mem_iff]
  simp only [buildSilver]
  refine ⟨hOs.1, hOc.1, ?_, ?_, ?_, ?_⟩
  · exact filter_perm_congr hOe.1 (fun x => by rw [hmE x])
  · exact filter_perm_congr hOa.1 (fun x => by rw [hmA x])
  · exact filter_perm_congr hOp.1 (fun x => by rw [hmP x])
  · refine List.Perm.append (List.Perm.append (List.Perm.append
      (List.Perm.append (List.Perm.append (List.Perm.append
        (List.Perm.append ?_ ?_) ?_) ?_) ?_) ?_) ?_) ?_
    · exact hOs.2.map _
    · exact hOc.2.map _
    · exact hOe.2.map _
    · exact hOa.2.map _
    · exact hOp.2.map _
    · exact (filter_perm_congr hOe.1 hmE).map _
    · exact (filter_perm_congr hOa.1 hmA).map _
    · exact (filter_perm_congr hOp.1 hmP).map _

/-- A valid student with key 1 for the C2 witness. -/
def c2wS1 : StudentRow :=
  ⟨some 1, some "Alice", some "a@x.com", some "Pune", none⟩

/-- A valid student with key 2 for the C2 witness. -/
def c2wS2 : StudentRow :=
  ⟨some 2, some "Bob", some "b@x.com", some "Delhi", none⟩

/-- Two-student snapshot in one order. -/
def c2wA : BronzeData := ⟨[c2wS1, c2wS2], [], [], [], []⟩

/-- The same snapshot with the students swapped. -/
def c2wB : BronzeData := ⟨[c2wS2, c2wS1], [], [], [], []⟩

/-- C2 amended witness: swapping two distinct-key students permutes the
outputs. -/
theorem c2_amended_witness :
    (buildSilver c2wA).students.Perm (buildSilver c2wB).students ∧
    (buildSilver c2wA).courses.Perm (buildSilver c2wB).courses ∧
    (buildSilver c2wA).enrollment.Perm (buildSilver c2wB).enrollment ∧
    (buildSilver c2wA).assessment.Perm (buildSilver c2wB).assessment ∧
    (buildSilver c2wA).payments.Perm (buildSilver c2wB).payments ∧
    (buildSilver c2wA).audit.Perm (buildSilver c2wB).audit :=
  c2_amended_order_invariance c2wA c2wB (List.Perm.swap c2wS2 c2wS1 [])
    (List.Perm.refl _) (List.Perm.refl _) (List.Perm.refl _)
    (List.Perm.refl _) (by decide) (by decide) (by decide) (by decide)
    (by decide)
